import Mathlib

/-!
Verification development for the open-wearables normalization core.

Shallow embedding of:
- app/constants/workout_types/google_health.py (vendor mapping tables and lookups)
- app/services/providers/google_health/handlers/health_connect.py (HealthConnectHandler)
- app/services/providers/google_health/workouts.py (process_payload dispatch)
- app/services/providers/factory.py (ProviderFactory.get_provider)
- app/services/providers/apple/handlers/healthkit.py (unit-conversion helpers)

Python data is modelled by the JVal type (JSON-like values); numbers, both the
payload numerals and decimal.Decimal amounts, are modelled as exact rationals.
Rational arithmetic is written with mkRat-based operations (pyAdd, pySub, pyMul,
pyDiv) so that concrete payloads evaluate inside the kernel; the bridge lemmas
pyAdd_eq, pySub_eq, pyMul_eq and pyDiv_eq below identify them with the field
operations of the rationals.  Statements that raise a Python exception are
modelled with Except: an .error result marks the exact program points where the
source raises, at the granularity the source's except clauses observe.
-/

/-- Rational addition spelled with mkRat, the decimal / numeric addition of the
Python sources (exact, like decimal.Decimal sums). -/
def pyAdd (a b : ℚ) : ℚ := mkRat (a.num * b.den + b.num * a.den) (a.den * b.den)

/-- Rational subtraction spelled with mkRat. -/
def pySub (a b : ℚ) : ℚ := mkRat (a.num * b.den - b.num * a.den) (a.den * b.den)

/-- Rational multiplication spelled with mkRat. -/
def pyMul (a b : ℚ) : ℚ := mkRat (a.num * b.num) (a.den * b.den)

/-- Rational division spelled with mkRat; division by zero yields zero, a case
never reached by the embedded code. -/
def pyDiv (a b : ℚ) : ℚ :=
  if 0 ≤ b.num then mkRat (a.num * b.den) (a.den * b.num.natAbs)
  else mkRat (-(a.num * b.den)) (a.den * b.num.natAbs)

/-- Python int() applied to an exact rational: truncation toward zero. -/
def ratTrunc (q : ℚ) : ℤ := q.num.tdiv q.den

/-- Unified workout taxonomy, the WorkoutType enumeration of
app/schemas/workout_types.py restricted to the members the Google Health
mapping table uses. -/
inductive WorkoutType where
  | RUNNING | TREADMILL | WALKING | HIKING
  | CYCLING | INDOOR_CYCLING
  | POOL_SWIMMING | OPEN_WATER_SWIMMING
  | STRENGTH_TRAINING | ELLIPTICAL | CARDIO_TRAINING | STRETCHING
  | FITNESS_EQUIPMENT | PILATES | ROCK_CLIMBING | INLINE_SKATING
  | ROWING_MACHINE | STAIR_CLIMBING | YOGA
  | ALPINE_SKIING | CROSS_COUNTRY_SKIING | HOCKEY | ICE_SKATING
  | SNOWBOARDING | SNOWSHOEING
  | KAYAKING | KITESURFING | PADDLING | ROWING | SAILING | DIVING
  | SURFING | WINDSURFING
  | AMERICAN_FOOTBALL | FOOTBALL | BADMINTON | BASEBALL | BASKETBALL
  | HANDBALL | RUGBY | SOCCER | VOLLEYBALL
  | SQUASH | TABLE_TENNIS | TENNIS | PICKLEBALL
  | BOXING | MARTIAL_ARTS | DANCE | GOLF | HORSEBACK_RIDING
  | STAND_UP_PADDLEBOARDING
  | OTHER

/-- The GOOGLE_HEALTH_WORKOUT_TYPE_MAPPINGS table, transcribed row by row in
source order (the order matters: the derived dictionaries are built by
comprehension, so a later row with a repeated key overrides an earlier one).
The table is written in four consecutive slices, concatenated below, purely to
keep elaboration fast; the concatenation preserves the source order. -/
def MAPPINGS_ROWS_A : List (ℤ × String × WorkoutType) :=
  [ (79, "EXERCISE_TYPE_RUNNING", .RUNNING),
    (80, "EXERCISE_TYPE_RUNNING_TREADMILL", .TREADMILL),
    (90, "EXERCISE_TYPE_WALKING", .WALKING),
    (36, "EXERCISE_TYPE_HIKING", .HIKING),
    (8, "EXERCISE_TYPE_BIKING", .CYCLING),
    (9, "EXERCISE_TYPE_BIKING_STATIONARY", .INDOOR_CYCLING),
    (82, "EXERCISE_TYPE_SWIMMING_POOL", .POOL_SWIMMING),
    (83, "EXERCISE_TYPE_SWIMMING_OPEN_WATER", .OPEN_WATER_SWIMMING),
    (5, "EXERCISE_TYPE_BACK_EXTENSION", .STRENGTH_TRAINING),
    (10, "EXERCISE_TYPE_CALISTHENICS", .STRENGTH_TRAINING),
    (13, "EXERCISE_TYPE_CRUNCH", .STRENGTH_TRAINING),
    (25, "EXERCISE_TYPE_ELLIPTICAL", .ELLIPTICAL),
    (26, "EXERCISE_TYPE_EXERCISE_CLASS", .CARDIO_TRAINING),
    (28, "EXERCISE_TYPE_FRISBEE_DISC", .OTHER),
    (32, "EXERCISE_TYPE_GUIDED_BREATHING", .STRETCHING),
    (33, "EXERCISE_TYPE_GYMNASTICS", .FITNESS_EQUIPMENT),
    (37, "EXERCISE_TYPE_HIGH_INTENSITY_INTERVAL_TRAINING", .CARDIO_TRAINING),
    (45, "EXERCISE_TYPE_JUMP_ROPE", .CARDIO_TRAINING),
    (55, "EXERCISE_TYPE_PILATES", .PILATES),
    (56, "EXERCISE_TYPE_PLANK", .STRENGTH_TRAINING) ]

/-- Table rows, second slice. -/
def MAPPINGS_ROWS_B : List (ℤ × String × WorkoutType) :=
  [ (74, "EXERCISE_TYPE_ROCK_CLIMBING", .ROCK_CLIMBING),
    (75, "EXERCISE_TYPE_ROLLER_SKATING", .INLINE_SKATING),
    (78, "EXERCISE_TYPE_ROWING_MACHINE", .ROWING_MACHINE),
    (84, "EXERCISE_TYPE_STAIR_CLIMBING", .STAIR_CLIMBING),
    (85, "EXERCISE_TYPE_STAIR_CLIMBING_MACHINE", .STAIR_CLIMBING),
    (86, "EXERCISE_TYPE_STRENGTH_TRAINING", .STRENGTH_TRAINING),
    (87, "EXERCISE_TYPE_STRETCHING", .STRETCHING),
    (91, "EXERCISE_TYPE_WEIGHTLIFTING", .STRENGTH_TRAINING),
    (92, "EXERCISE_TYPE_WHEELCHAIR", .OTHER),
    (93, "EXERCISE_TYPE_YOGA", .YOGA),
    (17, "EXERCISE_TYPE_DOWNHILL_SKIING", .ALPINE_SKIING),
    (18, "EXERCISE_TYPE_CROSS_COUNTRY_SKIING", .CROSS_COUNTRY_SKIING),
    (38, "EXERCISE_TYPE_ICE_HOCKEY", .HOCKEY),
    (39, "EXERCISE_TYPE_ICE_SKATING", .ICE_SKATING),
    (81, "EXERCISE_TYPE_SNOWBOARDING", .SNOWBOARDING),
    (89, "EXERCISE_TYPE_SNOWSHOEING", .SNOWSHOEING),
    (46, "EXERCISE_TYPE_KAYAKING", .KAYAKING),
    (47, "EXERCISE_TYPE_KITESURFING", .KITESURFING),
    (53, "EXERCISE_TYPE_PARAGLIDING", .OTHER),
    (54, "EXERCISE_TYPE_PADDLING", .PADDLING),
    (76, "EXERCISE_TYPE_ROWING", .ROWING) ]

/-- Table rows, third slice. -/
def MAPPINGS_ROWS_C : List (ℤ × String × WorkoutType) :=
  [ (77, "EXERCISE_TYPE_SAILING", .SAILING),
    (80, "EXERCISE_TYPE_SCUBA_DIVING", .DIVING),
    (88, "EXERCISE_TYPE_SURFING", .SURFING),
    (91, "EXERCISE_TYPE_WATER_POLO", .OTHER),
    (92, "EXERCISE_TYPE_WINDSURFING", .WINDSURFING),
    (3, "EXERCISE_TYPE_AMERICAN_FOOTBALL", .AMERICAN_FOOTBALL),
    (4, "EXERCISE_TYPE_AUSTRALIAN_FOOTBALL", .FOOTBALL),
    (6, "EXERCISE_TYPE_BADMINTON", .BADMINTON),
    (7, "EXERCISE_TYPE_BASEBALL", .BASEBALL),
    (11, "EXERCISE_TYPE_BASKETBALL", .BASKETBALL),
    (14, "EXERCISE_TYPE_CRICKET", .OTHER),
    (27, "EXERCISE_TYPE_FENCING", .OTHER),
    (31, "EXERCISE_TYPE_HANDBALL", .HANDBALL),
    (40, "EXERCISE_TYPE_LACROSSE", .OTHER),
    (73, "EXERCISE_TYPE_RUGBY", .RUGBY) ]

/-- Table rows, fourth slice. -/
def MAPPINGS_ROWS_D : List (ℤ × String × WorkoutType) :=
  [ (79, "EXERCISE_TYPE_SOCCER", .SOCCER),
    (80, "EXERCISE_TYPE_SOFTBALL", .BASEBALL),
    (88, "EXERCISE_TYPE_VOLLEYBALL", .VOLLEYBALL),
    (57, "EXERCISE_TYPE_RACQUETBALL", .OTHER),
    (84, "EXERCISE_TYPE_SQUASH", .SQUASH),
    (85, "EXERCISE_TYPE_TABLE_TENNIS", .TABLE_TENNIS),
    (86, "EXERCISE_TYPE_TENNIS", .TENNIS),
    (58, "EXERCISE_TYPE_PICKLEBALL", .PICKLEBALL),
    (12, "EXERCISE_TYPE_BOXING", .BOXING),
    (48, "EXERCISE_TYPE_MARTIAL_ARTS", .MARTIAL_ARTS),
    (93, "EXERCISE_TYPE_WRESTLING", .MARTIAL_ARTS),
    (15, "EXERCISE_TYPE_DANCING", .DANCE),
    (1, "EXERCISE_TYPE_ALPINE_SKIING", .ALPINE_SKIING),
    (2, "EXERCISE_TYPE_ARCHERY", .OTHER),
    (16, "EXERCISE_TYPE_GOLF", .GOLF),
    (29, "EXERCISE_TYPE_GARDENING", .OTHER),
    (34, "EXERCISE_TYPE_HORSEBACK_RIDING", .HORSEBACK_RIDING),
    (41, "EXERCISE_TYPE_MARTIAL_ARTS", .MARTIAL_ARTS),
    (50, "EXERCISE_TYPE_PADDLEBOARDING", .STAND_UP_PADDLEBOARDING),
    (59, "EXERCISE_TYPE_SKATING", .ICE_SKATING),
    (60, "EXERCISE_TYPE_SKATEBOARDING", .OTHER),
    (0, "EXERCISE_TYPE_OTHER_WORKOUT", .OTHER) ]

/-- The full table, the four slices in source order. -/
def GOOGLE_HEALTH_WORKOUT_TYPE_MAPPINGS : List (ℤ × String × WorkoutType) :=
  MAPPINGS_ROWS_A ++ MAPPINGS_ROWS_B ++ MAPPINGS_ROWS_C ++ MAPPINGS_ROWS_D

/-- The dictionary GOOGLE_HEALTH_ID_TO_UNIFIED built by comprehension over the
table: a Python dict comprehension keeps the LAST binding of a repeated key,
modelled here by searching the reversed table. -/
def GOOGLE_HEALTH_ID_TO_UNIFIED (exercise_id : ℤ) : Option WorkoutType :=
  (GOOGLE_HEALTH_WORKOUT_TYPE_MAPPINGS.reverse.find?
    (fun t => t.1 = exercise_id)).map (fun t => t.2.2)

/-- The dictionary GOOGLE_HEALTH_NAME_TO_UNIFIED, last binding wins. -/
def GOOGLE_HEALTH_NAME_TO_UNIFIED (name : String) : Option WorkoutType :=
  (GOOGLE_HEALTH_WORKOUT_TYPE_MAPPINGS.reverse.find?
    (fun t => t.2.1 = name)).map (fun t => t.2.2)

/-- get_unified_workout_type_by_id: dict .get with WorkoutType.OTHER default. -/
def get_unified_workout_type_by_id (exercise_type_id : ℤ) : WorkoutType :=
  (GOOGLE_HEALTH_ID_TO_UNIFIED exercise_type_id).getD WorkoutType.OTHER

/-- get_unified_workout_type_by_name: dict .get with WorkoutType.OTHER default. -/
def get_unified_workout_type_by_name (exercise_type_name : String) : WorkoutType :=
  (GOOGLE_HEALTH_NAME_TO_UNIFIED exercise_type_name).getD WorkoutType.OTHER

/-- Python datetime value: seconds since the Unix epoch as an exact rational
(UTC-normalized when an offset is present), together with the awareness flag.
datetime.now() produces a naive value; fromisoformat with an offset produces an
aware one.  Subtracting a naive from an aware datetime raises TypeError in
Python, which the embedding models at the subtraction site. -/
structure PyDateTime where
  epoch : ℚ
  aware : Bool
deriving DecidableEq

/-- Day count from 1970-01-01 for a civil date, the standard days-from-civil
computation datetime performs internally (valid for years 1-9999). -/
def daysFromCivil (y mo d : ℕ) : ℤ :=
  let yAdj : ℕ := if mo ≤ 2 then y - 1 else y
  let era : ℕ := yAdj / 400
  let yoe : ℕ := yAdj - era * 400
  let mp : ℕ := if 2 < mo then mo - 3 else mo + 9
  let doy : ℕ := (153 * mp + 2) / 5 + d - 1
  let doe : ℕ := yoe * 365 + yoe / 4 - yoe / 100 + doy
  (era * 146097 + doe : ℤ) - 719468

/-- Leap year test of the Gregorian calendar. -/
def isLeapYear (y : ℕ) : Bool :=
  y % 4 = 0 && (y % 100 != 0 || y % 400 = 0)

/-- Number of days in a month, as datetime validates day-of-month. -/
def daysInMonth (y mo : ℕ) : ℕ :=
  if mo = 2 then (if isLeapYear y then 29 else 28)
  else if mo = 4 || mo = 6 || mo = 9 || mo = 11 then 30
  else 31

/-- Read exactly n decimal digits from the character stream, returning the
accumulated value and the rest. -/
def readNat : ℕ → ℕ → List Char → Option (ℕ × List Char)
  | 0, acc, l => some (acc, l)
  | n + 1, acc, c :: l =>
      if c.isDigit then readNat n (acc * 10 + (c.toNat - 48)) l else none
  | _ + 1, _, [] => none

/-- Require one specific character at the head of the stream. -/
def expectChar (c : Char) : List Char → Option (List Char)
  | d :: l => if d = c then some l else none
  | [] => none

/-- Parse a dot-prefixed fractional-seconds block of one or more digits. -/
def parseFrac : List Char → Option (ℚ × List Char)
  | '.' :: r =>
      let ds := r.takeWhile (fun c => c.isDigit)
      let rest := r.dropWhile (fun c => c.isDigit)
      if ds = [] then none
      else some (mkRat (ds.foldl (fun a c => a * 10 + (c.toNat - 48)) 0) (10 ^ ds.length), rest)
  | l => some (0, l)

/-- Parse the optional UTC-offset suffix.  Returns some none when the string
ends with no offset (a naive datetime), some (some secs) for an explicit
+HH:MM or -HH:MM offset, and none when the suffix is ill-formed. -/
def parseOffset : List Char → Option (Option ℤ)
  | [] => some none
  | '+' :: r =>
      (readNat 2 0 r).bind (fun p =>
        (expectChar ':' p.2).bind (fun r2 =>
          (readNat 2 0 r2).bind (fun p2 =>
            if p2.2 = [] && p.1 ≤ 23 && p2.1 ≤ 59
            then some (some ((3600 * p.1 + 60 * p2.1 : ℕ) : ℤ))
            else none)))
  | '-' :: r =>
      (readNat 2 0 r).bind (fun p =>
        (expectChar ':' p.2).bind (fun r2 =>
          (readNat 2 0 r2).bind (fun p2 =>
            if p2.2 = [] && p.1 ≤ 23 && p2.1 ≤ 59
            then some (some (-((3600 * p.1 + 60 * p2.1 : ℕ) : ℤ)))
            else none)))
  | _ => none

/-- Parse the time-of-day part after the separator: HH, HH:MM, or HH:MM:SS
with an optional fractional part, followed by the optional offset.  Returns
the whole seconds of day, the fractional seconds, and the offset. -/
def parseTimeTail (l : List Char) : Option (ℕ × ℚ × Option ℤ) := do
  let (hh, r) ← readNat 2 0 l
  if 23 < hh then none else
  match r with
  | ':' :: r2 => do
      let (mi, r3) ← readNat 2 0 r2
      if 59 < mi then none else
      match r3 with
      | ':' :: r4 => do
          let (ss, r5) ← readNat 2 0 r4
          if 59 < ss then none else do
          let (fr, r6) ← parseFrac r5
          let off ← parseOffset r6
          some (3600 * hh + 60 * mi + ss, fr, off)
      | _ => do
          let off ← parseOffset r3
          some (3600 * hh + 60 * mi, 0, off)
  | _ => do
      let off ← parseOffset r
      some (3600 * hh, 0, off)

/-- Embedding of datetime.fromisoformat restricted to the shapes this code
base feeds it: YYYY-MM-DD, optionally followed by T and a time of day with
optional fractional seconds and optional +HH:MM / -HH:MM offset.  Returns
none exactly where fromisoformat raises ValueError on these shapes. -/
def fromisoformat (l : List Char) : Option PyDateTime := do
  let (y, r) ← readNat 4 0 l
  let r ← expectChar '-' r
  let (mo, r) ← readNat 2 0 r
  let r ← expectChar '-' r
  let (d, r) ← readNat 2 0 r
  if y < 1 || mo < 1 || 12 < mo || d < 1 || daysInMonth y mo < d then none else
  match r with
  | [] => some ⟨mkRat (86400 * daysFromCivil y mo d) 1, false⟩
  | 'T' :: tr => do
      let (secs, fr, off) ← parseTimeTail tr
      match off with
      | none => some ⟨pyAdd (mkRat (86400 * daysFromCivil y mo d + secs) 1) fr, false⟩
      | some o => some ⟨pyAdd (mkRat (86400 * daysFromCivil y mo d + secs - o) 1) fr, true⟩
  | _ => none

/-- JSON-like values, the payloads the handlers receive after wire
deserialization: numbers (ints and floats as exact rationals), strings,
objects, arrays and null. -/
inductive JVal where
  | num (q : ℚ)
  | str (s : String)
  | obj (fields : List (String × JVal))
  | arr (items : List JVal)
  | null

/-- Python truthiness of a payload value: zero, the empty string, the empty
list, the empty dict and None are falsy. -/
def pyTruthy : JVal → Bool
  | .num q => decide (q ≠ 0)
  | .str s => decide (s ≠ "")
  | .obj [] => false
  | .obj (_ :: _) => true
  | .arr [] => false
  | .arr (_ :: _) => true
  | .null => false

/-- Field lookup in an object's field list (payload objects come from JSON
decoding, so keys are unique and first match is the dict entry). -/
def jget (fields : List (String × JVal)) (k : String) : Option JVal :=
  (fields.find? (fun p => p.1 = k)).map (fun p => p.2)

/-- Python dict .get(k, default) called on an arbitrary value: succeeds only
on a dict, since any other receiver raises AttributeError (or TypeError for
None) at the .get call. -/
def pyDictGet (v : JVal) (k : String) (dflt : JVal) : Except Unit JVal :=
  match v with
  | .obj fields => .ok ((jget fields k).getD dflt)
  | _ => .error ()

/-- Python dict .get(k) with no default, as used for session.get of the id:
an absent key and a stored None both come back as None (here: none). -/
def pyGetOpt (fields : List (String × JVal)) (k : String) : Option JVal :=
  match jget fields k with
  | some .null => none
  | r => r

/-- Python iteration over a payload value: lists iterate their items, strings
iterate their characters, dicts iterate their keys, and numbers and None
raise TypeError. -/
def pyIter : JVal → Except Unit (List JVal)
  | .arr items => .ok items
  | .str s => .ok (s.data.map (fun c => .str (String.mk [c])))
  | .obj fields => .ok (fields.map (fun p => .str p.1))
  | .num _ => .error ()
  | .null => .error ()

/-- Numeric value of a payload entry for an order comparison against an int:
Python raises TypeError unless the value is a number. -/
def pyNumVal : JVal → Except Unit ℚ
  | .num q => .ok q
  | _ => .error ()

/-- Parser for decimal.Decimal string literals restricted to the plain
sign-digits-dot-digits shapes this data carries (exponent forms and the
special Infinity and NaN literals are outside the embedding's scope).
Returns none where the Decimal constructor raises. -/
def decimalOfChars (l : List Char) : Option ℚ :=
  let core : List Char → Option ℚ := fun l2 =>
    let ip := l2.takeWhile (fun c => c.isDigit)
    let rest := l2.dropWhile (fun c => c.isDigit)
    match rest with
    | [] => if ip = [] then none else some (mkRat (ip.foldl (fun a c => a * 10 + (c.toNat - 48)) 0) 1)
    | '.' :: fp =>
        if fp.all (fun c => c.isDigit) && (ip ≠ [] || fp ≠ []) then
          some (pyAdd (mkRat (ip.foldl (fun a c => a * 10 + (c.toNat - 48)) 0) 1)
            (mkRat (fp.foldl (fun a c => a * 10 + (c.toNat - 48)) 0) (10 ^ fp.length)))
        else none
    | _ => none
  match l with
  | '+' :: r => core r
  | '-' :: r => (core r).map (fun q => -q)
  | r => core r

/-- Decimal(str(v)) applied to a payload value: exact for numbers (str of a
Python number round-trips through Decimal to the same value), a parse of the
string for string values, and a raise for anything else (str of a dict, list
or None is not a valid Decimal literal). -/
def pyDecimalOfVal : JVal → Except Unit ℚ
  | .num q => .ok q
  | .str s => match decimalOfChars s.data with
      | some q => .ok q
      | none => .error ()
  | _ => .error ()

/-- Heart-rate statistics dict built by extract_heart_rate: the min, max and
avg entries. -/
structure HeartRateStats where
  hrMin : ℚ
  hrMax : ℚ
  hrAvg : ℚ
deriving DecidableEq

/-- EventRecordCreate, the canonical summary record the handler emits.  The
user_id is left none by the handler and stamped by process_payload. -/
structure EventRecord where
  category : String
  type : WorkoutType
  source_name : JVal
  device_id : Option JVal
  duration_seconds : ℤ
  start_datetime : PyDateTime
  end_datetime : PyDateTime
  provider_id : Option JVal
  user_id : Option ℕ

/-- EventRecordDetailCreate, the canonical detail metrics: optional fields
only, absent unless the source supplied enough data. -/
structure EventRecordDetail where
  heart_rate_avg : Option ℚ
  heart_rate_max : Option ℚ
  heart_rate_min : Option ℚ
  distance_total : Option ℚ
  calories_total : Option ℚ
  elevation_gain : Option ℚ

/-- Python min over a nonempty list of numbers (left fold keeping the
earlier element on ties). -/
def pyListMin : List ℚ → ℚ
  | [] => 0
  | x :: xs => xs.foldl (fun m y => if y < m then y else m) x

/-- Python max over a nonempty list of numbers. -/
def pyListMax : List ℚ → ℚ
  | [] => 0
  | x :: xs => xs.foldl (fun m y => if m < y then y else m) x

/-- Python sum over a list of numbers. -/
def pySum (l : List ℚ) : ℚ := l.foldl pyAdd 0

namespace HealthConnectHandler

/-- One iteration of the distance-summing loop of extract_distance:
record.get("distance", {}).get("inMeters", 0) converted through
Decimal(str(...)) and added to the running total. -/
def distance_step (acc : ℚ) (record : JVal) : Except Unit ℚ := do
  let dv ← pyDictGet record "distance" (.obj [])
  let m ← pyDictGet dv "inMeters" (.num 0)
  let q ← pyDecimalOfVal m
  Except.ok (pyAdd acc q)

/-- One iteration of the calories-summing loop of extract_calories. -/
def calories_step (acc : ℚ) (record : JVal) : Except Unit ℚ := do
  let ev ← pyDictGet record "energy" (.obj [])
  let m ← pyDictGet ev "inKilocalories" (.num 0)
  let q ← pyDecimalOfVal m
  Except.ok (pyAdd acc q)

/-- One iteration over a heart-rate sample: the beatsPerMinute value is
compared against 0 (TypeError for non-numbers) and appended when positive. -/
def hr_sample_step (acc : List ℚ) (sample : JVal) : Except Unit (List ℚ) := do
  let bpm ← pyDictGet sample "beatsPerMinute" (.num 0)
  let q ← pyNumVal bpm
  Except.ok (if 0 < q then acc ++ [q] else acc)

/-- One iteration over a heart-rate record: its samples list is iterated and
each sample processed. -/
def hr_record_step (acc : List ℚ) (record : JVal) : Except Unit (List ℚ) := do
  let samples ← pyDictGet record "samples" (.arr [])
  let items ← pyIter samples
  items.foldlM hr_sample_step acc

/-- One iteration of the elevation loop: the raw value is compared against 0
first (TypeError for non-numbers) and only positive values are converted and
added. -/
def elevation_step (acc : ℚ) (record : JVal) : Except Unit ℚ := do
  let ev ← pyDictGet record "elevation" (.obj [])
  let m ← pyDictGet ev "inMeters" (.num 0)
  let q ← pyNumVal m
  if 0 < q then do
    let qd ← pyDecimalOfVal m
    Except.ok (pyAdd acc qd)
  else Except.ok acc

/-- HealthConnectHandler._parse_datetime.  The current wall-clock reading
datetime.now() is passed in as the naive value now (the two calls the source
makes per session are modelled by one reading; their sub-second difference
carries no weight in any property here).  A falsy value returns now; a truthy
non-string raises at .endswith; ValueError from fromisoformat falls back to
now.  A trailing Z is first replaced by +00:00 (str.replace replaces every
occurrence of the one-character pattern). -/
def parse_datetime (now : ℚ) (v : JVal) : Except Unit PyDateTime :=
  if pyTruthy v = false then .ok ⟨now, false⟩
  else match v with
    | .str s =>
        let l := s.data
        let attempt :=
          if l.getLast? = some 'Z' then
            fromisoformat (l.flatMap (fun c => if c = 'Z' then "+00:00".data else [c]))
          else fromisoformat l
        .ok ((attempt).getD ⟨now, false⟩)
    | _ => .error ()

/-- The result of _parse_datetime on a string argument, as a total function:
empty or unparsable strings fall back to the naive now reading. -/
def parse_datetime_str (now : ℚ) (s : String) : PyDateTime :=
  if s = "" then ⟨now, false⟩
  else
    let l := s.data
    let attempt :=
      if l.getLast? = some 'Z' then
        fromisoformat (l.flatMap (fun c => if c = 'Z' then "+00:00".data else [c]))
      else fromisoformat l
    (attempt).getD ⟨now, false⟩

/-- Subtraction of two datetimes followed by int(...total_seconds()):
raises TypeError when one operand is aware and the other naive. -/
def datetime_sub_trunc (b a : PyDateTime) : Except Unit ℤ :=
  if b.aware = a.aware then .ok (ratTrunc (pySub b.epoch a.epoch)) else .error ()

/-- HealthConnectHandler._extract_distance. -/
def extract_distance (fields : List (String × JVal)) : Except Unit (Option ℚ) :=
  let distance_records := (jget fields "distanceRecords").getD (.arr [])
  if pyTruthy distance_records = false then .ok none
  else do
    let records ← pyIter distance_records
    let total ← records.foldlM distance_step 0
    Except.ok (if 0 < total then some total else none)

/-- HealthConnectHandler._extract_calories. -/
def extract_calories (fields : List (String × JVal)) : Except Unit (Option ℚ) :=
  let calories_records := (jget fields "caloriesRecords").getD (.arr [])
  if pyTruthy calories_records = false then .ok none
  else do
    let records ← pyIter calories_records
    let total ← records.foldlM calories_step 0
    Except.ok (if 0 < total then some total else none)

/-- HealthConnectHandler._extract_heart_rate: collect the positive samples of
every record, then return min, max and arithmetic mean, or nothing when no
valid sample remains.  The float mean sum(l)/len(l) passed through
Decimal(str(...)) is modelled as the exact rational mean (exact at the
magnitudes these payloads carry). -/
def extract_heart_rate (fields : List (String × JVal)) :
    Except Unit (Option HeartRateStats) :=
  let hr_records := (jget fields "heartRateRecords").getD (.arr [])
  if pyTruthy hr_records = false then .ok none
  else do
    let records ← pyIter hr_records
    let all_bpm ← records.foldlM hr_record_step []
    if all_bpm = [] then Except.ok none
    else Except.ok (some ⟨pyListMin all_bpm, pyListMax all_bpm,
      pyDiv (pySum all_bpm) (mkRat all_bpm.length 1)⟩)

/-- HealthConnectHandler._extract_elevation. -/
def extract_elevation (fields : List (String × JVal)) : Except Unit (Option ℚ) :=
  let elevation_records := (jget fields "elevationRecords").getD (.arr [])
  if pyTruthy elevation_records = false then .ok none
  else do
    let records ← pyIter elevation_records
    let total_gain ← records.foldlM elevation_step 0
    Except.ok (if 0 < total_gain then some total_gain else none)

/-- HealthConnectHandler._build_metrics assembled into the detail record:
each metric is present exactly when the extraction produced it. -/
def build_metrics (heart_rate_data : Option HeartRateStats)
    (distance_meters : Option ℚ) (calories : Option ℚ)
    (elevation_data : Option ℚ) : EventRecordDetail :=
  { heart_rate_avg := heart_rate_data.map (fun h => h.hrAvg)
    heart_rate_max := heart_rate_data.map (fun h => h.hrMax)
    heart_rate_min := heart_rate_data.map (fun h => h.hrMin)
    distance_total := distance_meters
    calories_total := calories
    elevation_gain := elevation_data }

/-- The exercise-type dictionary lookup performed with the raw payload value:
ints and equal-valued floats hit the int keys, other hashable values miss and
default to OTHER, and unhashable dicts and lists raise TypeError. -/
def lookup_exercise_type : JVal → Except Unit WorkoutType
  | .num q => .ok (if q.den = 1 then get_unified_workout_type_by_id q.num else .OTHER)
  | .str _ => .ok .OTHER
  | .null => .ok .OTHER
  | _ => .error ()

/-- HealthConnectHandler._parse_exercise_session: parse one session dict into
the canonical record pair.  Each .error marks a point where the source
raises and the per-session except clause in normalize observes it. -/
def parse_exercise_session (now : ℚ) (session : JVal) :
    Except Unit (EventRecord × EventRecordDetail) := do
  let fields ← match session with
    | .obj fs => Except.ok fs
    | _ => Except.error ()
  let exercise_type := (jget fields "exerciseType").getD (.num 0)
  let start_time ← parse_datetime now ((jget fields "startTime").getD (.str ""))
  let end_time ← parse_datetime now ((jget fields "endTime").getD (.str ""))
  let duration_seconds ← datetime_sub_trunc end_time start_time
  let metadata := (jget fields "metadata").getD (.obj [])
  let source_name ← pyDictGet metadata "dataOrigin" (.str "Google Health Connect")
  let device_name ← pyDictGet metadata "device" .null
  let distance_meters ← extract_distance fields
  let calories ← extract_calories fields
  let heart_rate_data ← extract_heart_rate fields
  let elevation_data ← extract_elevation fields
  let metrics := build_metrics heart_rate_data distance_meters calories elevation_data
  let unified_type ← lookup_exercise_type exercise_type
  Except.ok
    ({ category := "workout"
       type := unified_type
       source_name := source_name
       device_id := if pyTruthy device_name then some device_name else none
       duration_seconds := duration_seconds
       start_datetime := start_time
       end_datetime := end_time
       provider_id := pyGetOpt fields "id"
       user_id := none }, metrics)

/-- The per-session loop of normalize: a successful parse is collected; a
failed parse enters the except clause, which itself evaluates
session.get("id", "unknown") and therefore raises out of normalize when the
session is not a dict. -/
def normalize_sessions (now : ℚ) (sessions : List JVal) :
    Except Unit (List (EventRecord × EventRecordDetail)) :=
  sessions.foldlM (fun acc session =>
    match parse_exercise_session now session with
    | .ok pair => .ok (acc ++ [pair])
    | .error _ =>
      match session with
      | .obj _ => .ok acc
      | _ => .error ()) []

/-- HealthConnectHandler.normalize: a dict is wrapped as a single session, a
list is taken as the batch, and any other top-level shape raises ValueError. -/
def normalize (now : ℚ) (data : JVal) :
    Except Unit (List (EventRecord × EventRecordDetail)) :=
  match data with
  | .obj fields => normalize_sessions now [.obj fields]
  | .arr sessions => normalize_sessions now sessions
  | _ => .error ()

end HealthConnectHandler

/-- Errors of GoogleHealthWorkouts.process_payload: the ValueError naming an
unknown source type, or an error propagated from the handler. -/
inductive ProcessError where
  | unknownSource (source_type : String)
  | handlerError
deriving DecidableEq

/-- GoogleHealthWorkouts.process_payload: look the handler up by source type
(only health_connect is registered), normalize, stamp the user id on each
summary record and hand every pair to persistence.  The returned list is the
sequence of persisted pairs; an error persists nothing. -/
def process_payload (now : ℚ) (user_id : ℕ) (payload : JVal) (source_type : String) :
    Except ProcessError (List (EventRecord × EventRecordDetail)) :=
  if source_type = "health_connect" then
    match HealthConnectHandler.normalize now payload with
    | .ok pairs => .ok (pairs.map (fun p => ({ p.1 with user_id := some user_id }, p.2)))
    | .error _ => .error .handlerError
  else .error (.unknownSource source_type)

/-- The provider strategies the factory can build. -/
inductive ProviderStrategy where
  | apple | garmin | google_health | suunto | polar
deriving DecidableEq

/-- ProviderFactory.get_provider: the closed name-to-strategy match; an
unknown name raises ValueError with a message naming it. -/
def get_provider (provider_name : String) : Except String ProviderStrategy :=
  if provider_name = "apple" then .ok .apple
  else if provider_name = "garmin" then .ok .garmin
  else if provider_name = "google_health" then .ok .google_health
  else if provider_name = "suunto" then .ok .suunto
  else if provider_name = "polar" then .ok .polar
  else .error ("Unknown provider: " ++ provider_name)

namespace HealthKitHandler

/-- Parser for Python float(...) literals restricted to plain decimal shapes
with an optional exponent (inf, nan and underscore separators are outside the
embedding's scope).  The float value is modelled as the exact rational it
denotes. -/
def floatOfChars (l : List Char) : Option ℚ :=
  let mantissa : List Char → Option ℚ := fun l2 =>
    let ip := l2.takeWhile (fun c => c.isDigit)
    let rest := l2.dropWhile (fun c => c.isDigit)
    match rest with
    | [] => if ip = [] then none else some (mkRat (ip.foldl (fun a c => a * 10 + (c.toNat - 48)) 0) 1)
    | '.' :: fp =>
        if fp.all (fun c => c.isDigit) && (ip ≠ [] || fp ≠ []) then
          some (pyAdd (mkRat (ip.foldl (fun a c => a * 10 + (c.toNat - 48)) 0) 1)
            (mkRat (fp.foldl (fun a c => a * 10 + (c.toNat - 48)) 0) (10 ^ fp.length)))
        else none
    | _ => none
  let signedMantissa : List Char → Option ℚ := fun l2 =>
    match l2 with
    | '+' :: r => mantissa r
    | '-' :: r => (mantissa r).map (fun q => -q)
    | r => mantissa r
  let expPart : List Char → Option ℤ := fun l2 =>
    let signed : List Char → Option (ℤ → ℤ) := fun l3 =>
      match l3 with
      | '+' :: _ => some (fun z => z)
      | '-' :: _ => some (fun z => -z)
      | _ => some (fun z => z)
    let digitsOf : List Char → List Char := fun l3 =>
      match l3 with
      | '+' :: r => r
      | '-' :: r => r
      | r => r
    (signed l2).bind (fun sgn =>
      let ds := digitsOf l2
      if ds ≠ [] && ds.all (fun c => c.isDigit) then
        some (sgn (ds.foldl (fun a c => a * 10 + (c.toNat - 48)) 0))
      else none)
  let m := l.takeWhile (fun c => c ≠ 'e' && c ≠ 'E')
  let rest := l.dropWhile (fun c => c ≠ 'e' && c ≠ 'E')
  match rest with
  | [] => signedMantissa m
  | _ :: ex =>
      (signedMantissa m).bind (fun q =>
        (expPart ex).map (fun z =>
          if 0 ≤ z then pyMul q (mkRat (10 ^ z.natAbs) 1)
          else pyDiv q (mkRat (10 ^ z.natAbs) 1)))

/-- HealthKitHandler._parse_duration: a missing or empty value yields 0, a
value float() rejects yields 0 (the ValueError is caught), and the unit
selects the factor, minutes being the default for unknown units.  The result
is int(...), truncation toward zero. -/
def parse_duration (value : Option String) (unit : String) : ℤ :=
  match value with
  | none => 0
  | some v =>
      if v = "" then 0
      else match floatOfChars v.data with
        | none => 0
        | some duration =>
            if unit = "min" then ratTrunc (pyMul duration 60)
            else if unit = "hr" then ratTrunc (pyMul duration 3600)
            else if unit = "s" then ratTrunc duration
            else ratTrunc (pyMul duration 60)

/-- HealthKitHandler._parse_distance: a missing or empty value yields None;
a value Decimal rejects raises decimal.InvalidOperation, which the source's
except clause (ValueError, TypeError) does NOT catch, so the call errors; a
missing or empty unit returns the value as meters, known units convert, and
unknown units default to meters. -/
def parse_distance (value : Option String) (unit : Option String) :
    Except Unit (Option ℚ) :=
  match value with
  | none => .ok none
  | some v =>
      if v = "" then .ok none
      else match decimalOfChars v.data with
        | none => .error ()
        | some distance =>
            match unit with
            | none => .ok (some distance)
            | some u =>
                if u = "" then .ok (some distance)
                else if u = "km" then .ok (some (pyMul distance 1000))
                else if u = "mi" then .ok (some (pyMul distance (mkRat 160934 100)))
                else if u = "m" then .ok (some distance)
                else if u = "yd" then .ok (some (pyMul distance (mkRat 9144 10000)))
                else .ok (some distance)

/-- HealthKitHandler._parse_energy: as parse_distance a rejected value
raises uncaught decimal.InvalidOperation; Cal and kcal pass through, kJ
divides by Decimal 4.184 (modelled exactly; the 28-digit context rounding of
decimal division is not modelled), and unknown units default to kcal. -/
def parse_energy (value : Option String) (unit : String) : Except Unit (Option ℚ) :=
  match value with
  | none => .ok none
  | some v =>
      if v = "" then .ok none
      else match decimalOfChars v.data with
        | none => .error ()
        | some energy =>
            if unit = "Cal" || unit = "kcal" then .ok (some energy)
            else if unit = "kJ" then .ok (some (pyDiv energy (mkRat 4184 1000)))
            else .ok (some energy)

end HealthKitHandler

/-- The single-session Health Connect payload of the concrete running
scenario: exerciseType 79, a 45-minute UTC window, one distance record of
5280.5 m, one calories record of 342 kcal and five heart-rate samples. -/
def runningScenarioPayload : JVal := .obj
  [ ("exerciseType", .num 79),
    ("startTime", .str "2024-01-15T08:30:00Z"),
    ("endTime", .str "2024-01-15T09:15:00Z"),
    ("distanceRecords", .arr [.obj [("distance", .obj [("inMeters", .num (mkRat 52805 10))])]]),
    ("caloriesRecords", .arr [.obj [("energy", .obj [("inKilocalories", .num 342)])]]),
    ("heartRateRecords", .arr [.obj [("samples", .arr
      [ .obj [("beatsPerMinute", .num 125)],
        .obj [("beatsPerMinute", .num 142)],
        .obj [("beatsPerMinute", .num 138)],
        .obj [("beatsPerMinute", .num 155)],
        .obj [("beatsPerMinute", .num 148)] ])]]) ]

/-- A distance sub-record carrying one inMeters value. -/
def mkDistanceRecord (q : ℚ) : JVal := .obj [("distance", .obj [("inMeters", .num q)])]

/-- A session field list whose distanceRecords carry the given values. -/
def mkDistanceFields (qs : List ℚ) : List (String × JVal) :=
  [("distanceRecords", .arr (qs.map mkDistanceRecord))]

/-- A calories sub-record carrying one inKilocalories value. -/
def mkCaloriesRecord (q : ℚ) : JVal := .obj [("energy", .obj [("inKilocalories", .num q)])]

/-- A session field list whose caloriesRecords carry the given values. -/
def mkCaloriesFields (qs : List ℚ) : List (String × JVal) :=
  [("caloriesRecords", .arr (qs.map mkCaloriesRecord))]

/-- A heart-rate sample carrying one beatsPerMinute value. -/
def mkHeartRateSample (q : ℚ) : JVal := .obj [("beatsPerMinute", .num q)]

/-- A session field list with one heart-rate record carrying the given
samples. -/
def mkHeartRateFields (qs : List ℚ) : List (String × JVal) :=
  [("heartRateRecords", .arr [.obj [("samples", .arr (qs.map mkHeartRateSample))]])]

/-- An elevation sub-record carrying one inMeters value. -/
def mkElevationRecord (q : ℚ) : JVal := .obj [("elevation", .obj [("inMeters", .num q)])]

/-- A session field list whose elevationRecords carry the given values. -/
def mkElevationFields (qs : List ℚ) : List (String × JVal) :=
  [("elevationRecords", .arr (qs.map mkElevationRecord))]

/-- A session carrying only the two timestamp strings. -/
def mkTimesSession (s e : String) : JVal :=
  .obj [("startTime", .str s), ("endTime", .str e)]

/-- A timestamp string on which _parse_datetime falls back to the wall
clock: empty, or rejected by the fromisoformat attempt (after the trailing-Z
replacement the handler performs). -/
def fallsBack (s : String) : Prop :=
  s = "" ∨ (if s.data.getLast? = some 'Z' then
      fromisoformat (s.data.flatMap (fun c => if c = 'Z' then "+00:00".data else [c]))
    else fromisoformat s.data) = none

/-- Shape test: is the payload a JSON object. -/
def JVal.isObj : JVal → Bool
  | .obj _ => true
  | _ => false

/-- Shape test: is the payload a JSON array. -/
def JVal.isArr : JVal → Bool
  | .arr _ => true
  | _ => false

theorem pyAdd_eq (a b : ℚ) : pyAdd a b = a + b := (Rat.add_def' a b).symm

theorem pySub_eq (a b : ℚ) : pySub a b = a - b := (Rat.sub_def' a b).symm

theorem pyMul_eq (a b : ℚ) : pyMul a b = a * b := by
  unfold pyMul
  rw [← Rat.mkRat_mul_mkRat, Rat.mkRat_self, Rat.mkRat_self]

theorem pyDiv_eq (a b : ℚ) : pyDiv a b = a / b := by
  unfold pyDiv
  by_cases hpos : 0 ≤ b.num
  · rw [if_pos hpos, Rat.div_def', Rat.mkRat_eq_divInt]
    congr 1
    push_cast [Int.natAbs_of_nonneg hpos]
    ring
  · rw [if_neg hpos, Rat.div_def', Rat.mkRat_eq_divInt]
    have h : ((a.den * b.num.natAbs : ℕ) : ℤ) = -(a.den * b.num) := by
      push_cast
      rw [abs_of_nonpos (le_of_lt (not_le.1 hpos))]
      ring
    rw [h, Rat.divInt_neg, neg_neg]

theorem pySum_eq (l : List ℚ) : pySum l = l.sum := by
  unfold pySum
  have h : ∀ acc : ℚ, l.foldl pyAdd acc = acc + l.sum := by
    induction l with
    | nil => intro acc; simp [List.foldl]
    | cons x t ih =>
        intro acc
        simp only [List.foldl, List.sum_cons, pyAdd_eq, ih]
        ring
  simpa using h 0

/-- Claim C1: evaluation of the Health Connect handler on the concrete
single-session running scenario (wall clock fixed at epoch 0; both timestamps
parse, so the clock is never consulted).  The handler returns exactly one
record pair with duration_seconds 2700, distance_total 5280.5,
calories_total 342, heart-rate min 125, max 155 and average 141.6 = 708/5 —
but the canonical type is SOCCER, not RUNNING: the mapping table carries a
second row (79, EXERCISE_TYPE_SOCCER) after (79, EXERCISE_TYPE_RUNNING), and
the id dictionary keeps the last binding.  This contradicts the claim, the
lookup's own docstring examples and the repository's tests. -/
theorem claim1_running_payload_maps_to_soccer :
    HealthConnectHandler.normalize 0 runningScenarioPayload = .ok
      [({ category := "workout"
          type := .SOCCER
          source_name := .str "Google Health Connect"
          device_id := none
          duration_seconds := 2700
          start_datetime := ⟨mkRat 1705307400 1, true⟩
          end_datetime := ⟨mkRat 1705310100 1, true⟩
          provider_id := none
          user_id := none },
        { heart_rate_avg := some (mkRat 708 5)
          heart_rate_max := some 155
          heart_rate_min := some 125
          distance_total := some (mkRat 52805 10)
          calories_total := some 342
          elevation_gain := none })] := rfl

/-- Claim C2: a batch containing one malformed, non-dict session makes normalize
itself raise instead of skipping the session: the per-session except clause
evaluates session.get("id", "unknown") on the non-dict session, which raises
AttributeError out of normalize.  The claim's no-exception-escapes guarantee
fails on this input (N = 1, K = 1, yet no empty result is returned). -/
theorem claim2_nondict_session_error_escapes :
    HealthConnectHandler.normalize 0 (.arr [.str "oops"]) = .error () := rfl

/-- Claim C3: both taxonomy lookups are total with OTHER as the default: any
integer code outside the table's id column and any name outside the table's
name column map to OTHER, and neither lookup can fail. -/
theorem claim3_unknown_code_and_name_map_to_other
    (i : ℤ) (s : String)
    (hid : i ∉ GOOGLE_HEALTH_WORKOUT_TYPE_MAPPINGS.map (fun t => t.1))
    (hname : ∀ t ∈ GOOGLE_HEALTH_WORKOUT_TYPE_MAPPINGS, t.2.1 ≠ s) :
    get_unified_workout_type_by_id i = .OTHER ∧
    get_unified_workout_type_by_name s = .OTHER := by
  constructor
  · unfold get_unified_workout_type_by_id GOOGLE_HEALTH_ID_TO_UNIFIED
    have h : GOOGLE_HEALTH_WORKOUT_TYPE_MAPPINGS.reverse.find?
        (fun t => t.1 = i) = none := by
      rw [List.find?_eq_none]
      intro t ht
      simp only [decide_eq_true_eq]
      intro he
      exact hid (List.mem_map.2 ⟨t, List.mem_reverse.1 ht, he⟩)
    rw [h]
    rfl
  · unfold get_unified_workout_type_by_name GOOGLE_HEALTH_NAME_TO_UNIFIED
    have h : GOOGLE_HEALTH_WORKOUT_TYPE_MAPPINGS.reverse.find?
        (fun t => t.2.1 = s) = none := by
      rw [List.find?_eq_none]
      intro t ht
      simp only [decide_eq_true_eq]
      exact hname t (List.mem_reverse.1 ht)
    rw [h]
    rfl

/-- Witness for C3 at the concrete unmapped inputs 999 and UNKNOWN. -/
theorem claim3_unknown_code_and_name_map_to_other_witness :
    get_unified_workout_type_by_id 999 = .OTHER ∧
    get_unified_workout_type_by_name "UNKNOWN" = .OTHER :=
  claim3_unknown_code_and_name_map_to_other 999 "UNKNOWN" (by decide) (by decide)

/-- Claim C4: the three HealthKit conversions evaluated at absent and garbled
input.  The duration conversion returns the integer 0 — a value, not an
absent marker — for both a missing and a garbled value; the distance and
energy conversions return no value for a missing value but RAISE on a
garbled one: Decimal("garbage") raises decimal.InvalidOperation, which the
source's except (ValueError, TypeError) clause does not catch.  Unknown unit
tags do default to minutes, meters and kilocalories. -/
theorem claim4_conversion_failures_at_garbled_input :
    HealthKitHandler.parse_duration none "min" = 0 ∧
    HealthKitHandler.parse_duration (some "garbage") "min" = 0 ∧
    HealthKitHandler.parse_distance none (some "m") = .ok none ∧
    HealthKitHandler.parse_distance (some "garbage") (some "m") = .error () ∧
    HealthKitHandler.parse_energy none "kcal" = .ok none ∧
    HealthKitHandler.parse_energy (some "garbage") "kcal" = .error () ∧
    HealthKitHandler.parse_duration (some "90") "bogus" = 5400 ∧
    HealthKitHandler.parse_distance (some "5") (some "bogus") = .ok (some 5) ∧
    HealthKitHandler.parse_energy (some "5") "bogus" = .ok (some 5) :=
  ⟨rfl, rfl, rfl, rfl, rfl, rfl, rfl, rfl, rfl⟩

/-- Claim C8: a top-level payload that is neither an object nor an array makes the
handler raise its unsupported-data-type ValueError, and process_payload
propagates the failure without persisting anything (an .error result carries
no record list). -/
theorem claim8_shape_error_aborts
    (now : ℚ) (user_id : ℕ) (v : JVal)
    (hobj : v.isObj = false) (harr : v.isArr = false) :
    HealthConnectHandler.normalize now v = .error () ∧
    process_payload now user_id v "health_connect" = .error .handlerError := by
  cases v with
  | num q => exact ⟨rfl, rfl⟩
  | str s => exact ⟨rfl, rfl⟩
  | null => exact ⟨rfl, rfl⟩
  | obj fields => simp [JVal.isObj] at hobj
  | arr items => simp [JVal.isArr] at harr

/-- Witness for C8 at the concrete bare-string payload. -/
theorem claim8_shape_error_aborts_witness :
    HealthConnectHandler.normalize 0 (.str "not a dict or list") = .error () ∧
    process_payload 0 0 (.str "not a dict or list") "health_connect" =
      .error .handlerError :=
  claim8_shape_error_aborts 0 0 (.str "not a dict or list") rfl rfl

/-- Claim C9: the factory rejects every provider name outside the closed five-name
set with a ValueError naming it, and process_payload rejects every source
type other than health_connect with a ValueError naming the unrecognized
value; in both cases the call errors and nothing is normalized or persisted. -/
theorem claim9_configuration_errors
    (provider_name source_type : String) (now : ℚ) (user_id : ℕ) (payload : JVal)
    (hp : provider_name ∉ ["apple", "garmin", "google_health", "suunto", "polar"])
    (hs : source_type ≠ "health_connect") :
    get_provider provider_name = .error ("Unknown provider: " ++ provider_name) ∧
    process_payload now user_id payload source_type = .error (.unknownSource source_type) := by
  simp only [List.mem_cons, List.not_mem_nil, or_false, not_or] at hp
  obtain ⟨h1, h2, h3, h4, h5⟩ := hp
  constructor
  · simp [get_provider, h1, h2, h3, h4, h5]
  · simp [process_payload, hs]

/-- Witness for C9 at the concrete unknown names fitbit and garmin_fit. -/
theorem claim9_configuration_errors_witness :
    get_provider "fitbit" = .error ("Unknown provider: " ++ "fitbit") ∧
    process_payload 0 0 .null "garmin_fit" = .error (.unknownSource "garmin_fit") :=
  claim9_configuration_errors "fitbit" "garmin_fit" 0 0 .null (by decide) (by decide)

theorem foldlM_cons_except {α β : Type} (f : β → α → Except Unit β) (acc : β) (x : α) (l : List α) :
    List.foldlM f acc (x :: l) = (f acc x).bind (fun a => List.foldlM f a l) := rfl

theorem foldlM_nil_except {α β : Type} (f : β → α → Except Unit β) (acc : β) :
    List.foldlM f acc ([] : List α) = .ok acc := rfl

theorem except_bind_ok {α β : Type} (a : α) (f : α → Except Unit β) :
    (Except.ok a : Except Unit α).bind f = f a := rfl

theorem distance_step_mk (acc q : ℚ) :
    HealthConnectHandler.distance_step acc (mkDistanceRecord q) = .ok (pyAdd acc q) := rfl

theorem calories_step_mk (acc q : ℚ) :
    HealthConnectHandler.calories_step acc (mkCaloriesRecord q) = .ok (pyAdd acc q) := rfl

theorem hr_sample_step_mk (acc : List ℚ) (q : ℚ) :
    HealthConnectHandler.hr_sample_step acc (mkHeartRateSample q) =
      .ok (if 0 < q then acc ++ [q] else acc) := rfl

theorem elevation_step_mk (acc q : ℚ) :
    HealthConnectHandler.elevation_step acc (mkElevationRecord q) =
      .ok (if 0 < q then pyAdd acc q else acc) := by
  show (if 0 < q then Except.ok (pyAdd acc q) else Except.ok acc) = _
  by_cases h : 0 < q
  · rw [if_pos h, if_pos h]
  · rw [if_neg h, if_neg h]

theorem distance_foldlM (qs : List ℚ) : ∀ acc : ℚ,
    List.foldlM HealthConnectHandler.distance_step acc (qs.map mkDistanceRecord) =
      .ok (acc + qs.sum) := by
  induction qs with
  | nil =>
      intro acc
      rw [List.map_nil, foldlM_nil_except, List.sum_nil, add_zero]
  | cons q t ih =>
      intro acc
      rw [List.map_cons, foldlM_cons_except, distance_step_mk, except_bind_ok, ih,
        pyAdd_eq, List.sum_cons]
      ring_nf

theorem calories_foldlM (qs : List ℚ) : ∀ acc : ℚ,
    List.foldlM HealthConnectHandler.calories_step acc (qs.map mkCaloriesRecord) =
      .ok (acc + qs.sum) := by
  induction qs with
  | nil =>
      intro acc
      rw [List.map_nil, foldlM_nil_except, List.sum_nil, add_zero]
  | cons q t ih =>
      intro acc
      rw [List.map_cons, foldlM_cons_except, calories_step_mk, except_bind_ok, ih,
        pyAdd_eq, List.sum_cons]
      ring_nf

theorem elevation_foldlM (qs : List ℚ) : ∀ acc : ℚ,
    List.foldlM HealthConnectHandler.elevation_step acc (qs.map mkElevationRecord) =
      .ok (acc + (qs.filter (fun q => decide (0 < q))).sum) := by
  induction qs with
  | nil =>
      intro acc
      rw [List.map_nil, foldlM_nil_except, List.filter_nil, List.sum_nil, add_zero]
  | cons q t ih =>
      intro acc
      rw [List.map_cons, foldlM_cons_except, elevation_step_mk, except_bind_ok, ih]
      by_cases h : 0 < q
      · rw [if_pos h, pyAdd_eq, List.filter_cons_of_pos (by simpa using h), List.sum_cons]
        ring_nf
      · rw [if_neg h, List.filter_cons_of_neg (by simpa using h)]

theorem hr_samples_foldlM (qs : List ℚ) : ∀ acc : List ℚ,
    List.foldlM HealthConnectHandler.hr_sample_step acc (qs.map mkHeartRateSample) =
      .ok (acc ++ qs.filter (fun q => decide (0 < q))) := by
  induction qs with
  | nil =>
      intro acc
      rw [List.map_nil, foldlM_nil_except, List.filter_nil, List.append_nil]
  | cons q t ih =>
      intro acc
      rw [List.map_cons, foldlM_cons_except, hr_sample_step_mk, except_bind_ok]
      by_cases h : 0 < q
      · rw [if_pos h, ih, List.filter_cons_of_pos (by simpa using h)]
        simp [List.append_assoc]
      · rw [if_neg h, ih, List.filter_cons_of_neg (by simpa using h)]

theorem extract_distance_mk (qs : List ℚ) :
    HealthConnectHandler.extract_distance (mkDistanceFields qs) =
      .ok (if 0 < qs.sum then some qs.sum else none) := by
  cases qs with
  | nil => rfl
  | cons q t =>
      show (List.foldlM HealthConnectHandler.distance_step 0 ((q :: t).map mkDistanceRecord)).bind
          (fun total => Except.ok (if 0 < total then some total else none)) =
        Except.ok (if 0 < (q :: t).sum then some (q :: t).sum else none)
      rw [distance_foldlM, except_bind_ok, zero_add]

theorem extract_calories_mk (qs : List ℚ) :
    HealthConnectHandler.extract_calories (mkCaloriesFields qs) =
      .ok (if 0 < qs.sum then some qs.sum else none) := by
  cases qs with
  | nil => rfl
  | cons q t =>
      show (List.foldlM HealthConnectHandler.calories_step 0 ((q :: t).map mkCaloriesRecord)).bind
          (fun total => Except.ok (if 0 < total then some total else none)) =
        Except.ok (if 0 < (q :: t).sum then some (q :: t).sum else none)
      rw [calories_foldlM, except_bind_ok, zero_add]

theorem extract_elevation_mk (qs : List ℚ) :
    HealthConnectHandler.extract_elevation (mkElevationFields qs) =
      .ok (if 0 < (qs.filter (fun q => decide (0 < q))).sum
           then some ((qs.filter (fun q => decide (0 < q))).sum) else none) := by
  cases qs with
  | nil => rfl
  | cons q t =>
      show (List.foldlM HealthConnectHandler.elevation_step 0 ((q :: t).map mkElevationRecord)).bind
          (fun total => Except.ok (if 0 < total then some total else none)) =
        Except.ok _
      rw [elevation_foldlM, except_bind_ok, zero_add]


theorem extract_heart_rate_mk (bpms : List ℚ) :
    HealthConnectHandler.extract_heart_rate (mkHeartRateFields bpms) =
      .ok (if (bpms.filter (fun q => decide (0 < q))) = [] then none
           else some ⟨pyListMin (bpms.filter (fun q => decide (0 < q))),
                      pyListMax (bpms.filter (fun q => decide (0 < q))),
                      (bpms.filter (fun q => decide (0 < q))).sum /
                        ((bpms.filter (fun q => decide (0 < q))).length : ℚ)⟩) := by
  have step1 : HealthConnectHandler.extract_heart_rate (mkHeartRateFields bpms) =
      ((List.foldlM HealthConnectHandler.hr_sample_step [] (bpms.map mkHeartRateSample)).bind
        (fun a => List.foldlM HealthConnectHandler.hr_record_step a [])).bind
        (fun all_bpm =>
          if all_bpm = [] then Except.ok none
          else Except.ok (some (⟨pyListMin all_bpm, pyListMax all_bpm,
            pyDiv (pySum all_bpm) (mkRat all_bpm.length 1)⟩ : HeartRateStats))) := rfl
  rw [step1, hr_samples_foldlM, except_bind_ok, foldlM_nil_except, except_bind_ok,
    List.nil_append, pyDiv_eq, pySum_eq, Rat.mkRat_one]
  push_cast
  split <;> rfl

/-- Claim C6: aggregation over repeated sub-records never fails and resolves
zero-or-absent toward absent: for every session whose distanceRecords,
caloriesRecords, heartRateRecords or elevationRecords entry is absent or an
empty list, the corresponding extraction returns successfully with no value
(never an error, never zero); and for every list of additive sub-record
values summing to exactly zero, the distance and calories extractions return
no value. -/
theorem claim6_empty_and_zero_sum_absent (fields : List (String × JVal)) :
    (jget fields "distanceRecords" = none ∨ jget fields "distanceRecords" = some (.arr []) →
      HealthConnectHandler.extract_distance fields = .ok none) ∧
    (jget fields "caloriesRecords" = none ∨ jget fields "caloriesRecords" = some (.arr []) →
      HealthConnectHandler.extract_calories fields = .ok none) ∧
    (jget fields "heartRateRecords" = none ∨ jget fields "heartRateRecords" = some (.arr []) →
      HealthConnectHandler.extract_heart_rate fields = .ok none) ∧
    (jget fields "elevationRecords" = none ∨ jget fields "elevationRecords" = some (.arr []) →
      HealthConnectHandler.extract_elevation fields = .ok none) ∧
    (∀ qs : List ℚ, qs.sum = 0 →
      HealthConnectHandler.extract_distance (mkDistanceFields qs) = .ok none ∧
      HealthConnectHandler.extract_calories (mkCaloriesFields qs) = .ok none) := by
  refine ⟨?_, ?_, ?_, ?_, ?_⟩
  · intro h
    unfold HealthConnectHandler.extract_distance
    rcases h with h | h <;> rw [h] <;> rfl
  · intro h
    unfold HealthConnectHandler.extract_calories
    rcases h with h | h <;> rw [h] <;> rfl
  · intro h
    unfold HealthConnectHandler.extract_heart_rate
    rcases h with h | h <;> rw [h] <;> rfl
  · intro h
    unfold HealthConnectHandler.extract_elevation
    rcases h with h | h <;> rw [h] <;> rfl
  · intro qs hsum
    constructor
    · rw [extract_distance_mk, hsum]
      simp
    · rw [extract_calories_mk, hsum]
      simp

/-- Witness for C6 at a session with no sub-record lists and at the concrete
zero-sum value set 0, 0. -/
theorem claim6_empty_and_zero_sum_absent_witness :
    HealthConnectHandler.extract_distance [] = .ok none ∧
    HealthConnectHandler.extract_calories [] = .ok none ∧
    HealthConnectHandler.extract_heart_rate [] = .ok none ∧
    HealthConnectHandler.extract_elevation [] = .ok none ∧
    HealthConnectHandler.extract_distance (mkDistanceFields [0, 0]) = .ok none ∧
    HealthConnectHandler.extract_calories (mkCaloriesFields [0, 0]) = .ok none :=
  ⟨(claim6_empty_and_zero_sum_absent []).1 (Or.inl rfl),
   (claim6_empty_and_zero_sum_absent []).2.1 (Or.inl rfl),
   (claim6_empty_and_zero_sum_absent []).2.2.1 (Or.inl rfl),
   (claim6_empty_and_zero_sum_absent []).2.2.2.1 (Or.inl rfl),
   ((claim6_empty_and_zero_sum_absent []).2.2.2.2 [0, 0] (by simp)).1,
   ((claim6_empty_and_zero_sum_absent []).2.2.2.2 [0, 0] (by simp)).2⟩

/-- Claim C7: heart-rate aggregation discards the non-positive samples first; when
no valid sample remains all three statistics are absent from the detail, and
otherwise the detail carries the minimum, the maximum and the arithmetic
mean of the remaining samples. -/
theorem claim7_heart_rate_stats (bpms : List ℚ) :
    (HealthConnectHandler.extract_heart_rate (mkHeartRateFields bpms) =
      .ok (if (bpms.filter (fun q => decide (0 < q))) = [] then none
           else some ⟨pyListMin (bpms.filter (fun q => decide (0 < q))),
                      pyListMax (bpms.filter (fun q => decide (0 < q))),
                      (bpms.filter (fun q => decide (0 < q))).sum /
                        ((bpms.filter (fun q => decide (0 < q))).length : ℚ)⟩)) ∧
    (∀ d c e : Option ℚ, HealthConnectHandler.build_metrics none d c e =
      ⟨none, none, none, d, c, e⟩) ∧
    (∀ (st : HeartRateStats) (d c e : Option ℚ),
      HealthConnectHandler.build_metrics (some st) d c e =
        ⟨some st.hrAvg, some st.hrMax, some st.hrMin, d, c, e⟩) :=
  ⟨extract_heart_rate_mk bpms, fun _ _ _ => rfl, fun _ _ _ _ => rfl⟩

/-- Claim C10: the additive detail metrics are present exactly when the computed
total is strictly positive — a zero or negative sum of distance or calories
sub-records yields an absent metric — and the elevation gain sums only the
strictly positive elevation entries, itself absent unless that sum is
positive. -/
theorem claim10_additive_presence_iff_positive (qs : List ℚ) :
    HealthConnectHandler.extract_distance (mkDistanceFields qs) =
      .ok (if 0 < qs.sum then some qs.sum else none) ∧
    HealthConnectHandler.extract_calories (mkCaloriesFields qs) =
      .ok (if 0 < qs.sum then some qs.sum else none) ∧
    HealthConnectHandler.extract_elevation (mkElevationFields qs) =
      .ok (if 0 < (qs.filter (fun q => decide (0 < q))).sum
           then some ((qs.filter (fun q => decide (0 < q))).sum) else none) :=
  ⟨extract_distance_mk qs, extract_calories_mk qs, extract_elevation_mk qs⟩

theorem parse_datetime_on_str (now : ℚ) (s : String) :
    HealthConnectHandler.parse_datetime now (.str s) =
      .ok (HealthConnectHandler.parse_datetime_str now s) := by
  unfold HealthConnectHandler.parse_datetime HealthConnectHandler.parse_datetime_str
  by_cases h : s = ""
  · subst h
    rfl
  · rw [if_neg h]
    rw [if_neg (by simp [pyTruthy, h])]

theorem fallsBack_substitutes (now : ℚ) (s : String) (h : fallsBack s) :
    HealthConnectHandler.parse_datetime_str now s = ⟨now, false⟩ := by
  unfold HealthConnectHandler.parse_datetime_str
  rcases h with h | h
  · rw [if_pos h]
  · by_cases he : s = ""
    · rw [if_pos he]
    · rw [if_neg he]
      show (if s.data.getLast? = some 'Z' then
          fromisoformat (s.data.flatMap (fun c => if c = 'Z' then "+00:00".data else [c]))
        else fromisoformat s.data).getD ⟨now, false⟩ = _
      rw [h]
      rfl

theorem parse_times_session (now : ℚ) (s e : String)
    (haware : (HealthConnectHandler.parse_datetime_str now s).aware =
      (HealthConnectHandler.parse_datetime_str now e).aware) :
    HealthConnectHandler.parse_exercise_session now (mkTimesSession s e) =
      .ok ({ category := "workout"
             type := .OTHER
             source_name := .str "Google Health Connect"
             device_id := none
             duration_seconds := ratTrunc (pySub
               (HealthConnectHandler.parse_datetime_str now e).epoch
               (HealthConnectHandler.parse_datetime_str now s).epoch)
             start_datetime := HealthConnectHandler.parse_datetime_str now s
             end_datetime := HealthConnectHandler.parse_datetime_str now e
             provider_id := none
             user_id := none },
           ⟨none, none, none, none, none, none⟩) := by
  have step1 : HealthConnectHandler.parse_exercise_session now (mkTimesSession s e) =
      (HealthConnectHandler.parse_datetime now (.str s)).bind (fun start_time =>
        (HealthConnectHandler.parse_datetime now (.str e)).bind (fun end_time =>
          (HealthConnectHandler.datetime_sub_trunc end_time start_time).bind (fun dur =>
            Except.ok ({ category := "workout"
                         type := .OTHER
                         source_name := .str "Google Health Connect"
                         device_id := none
                         duration_seconds := dur
                         start_datetime := start_time
                         end_datetime := end_time
                         provider_id := none
                         user_id := none },
                       ⟨none, none, none, none, none, none⟩)))) := rfl
  rw [step1, parse_datetime_on_str, except_bind_ok, parse_datetime_on_str, except_bind_ok]
  unfold HealthConnectHandler.datetime_sub_trunc
  rw [if_pos haware.symm, except_bind_ok]

theorem normalize_obj_session_ok (now : ℚ) (fields : List (String × JVal))
    (pair : EventRecord × EventRecordDetail)
    (h : HealthConnectHandler.parse_exercise_session now (.obj fields) = .ok pair) :
    HealthConnectHandler.normalize now (.obj fields) = .ok [pair] := by
  unfold HealthConnectHandler.normalize HealthConnectHandler.normalize_sessions
  dsimp only
  rw [foldlM_cons_except]
  simp only [h]
  rfl

/-- Claim C5 counterexample: a session whose end timestamp is wholly unparsable
but whose start timestamp parses as timezone-aware produces NO record pair:
the substituted wall-clock time is naive, Python raises TypeError on the
aware-minus-naive subtraction, and the session is skipped — normalize
returns an empty batch, contradicting the claim that such a session still
yields a canonical record pair. -/
theorem claim5_aware_minus_naive_drops_session :
    HealthConnectHandler.normalize 0
      (mkTimesSession "2024-01-15T08:30:00Z" "garbage") = .ok [] := rfl

/-- Claim C5 amended: for every session whose start or end timestamp string is
empty or wholly unparsable, the handler substitutes the current wall-clock
reading for that timestamp, and the session still produces exactly one
canonical record pair PROVIDED the two resulting datetimes agree in
timezone-awareness (both substituted or the other one naive); when the
other timestamp parses as timezone-aware, the aware/naive duration
subtraction fails and the session is skipped, as the counterexample shows. -/
theorem claim5_substitution_and_survival (now : ℚ) (s e : String)
    (_hfail : fallsBack s ∨ fallsBack e)
    (haware : (HealthConnectHandler.parse_datetime_str now s).aware =
      (HealthConnectHandler.parse_datetime_str now e).aware) :
    (fallsBack s → HealthConnectHandler.parse_datetime_str now s = ⟨now, false⟩) ∧
    (fallsBack e → HealthConnectHandler.parse_datetime_str now e = ⟨now, false⟩) ∧
    HealthConnectHandler.normalize now (mkTimesSession s e) =
      .ok [({ category := "workout"
              type := .OTHER
              source_name := .str "Google Health Connect"
              device_id := none
              duration_seconds := ratTrunc (pySub
                (HealthConnectHandler.parse_datetime_str now e).epoch
                (HealthConnectHandler.parse_datetime_str now s).epoch)
              start_datetime := HealthConnectHandler.parse_datetime_str now s
              end_datetime := HealthConnectHandler.parse_datetime_str now e
              provider_id := none
              user_id := none },
            ⟨none, none, none, none, none, none⟩)] := by
  refine ⟨fallsBack_substitutes now s, fallsBack_substitutes now e, ?_⟩
  exact normalize_obj_session_ok now _ _ (parse_times_session now s e haware)

/-- Witness for the amended C5 at a session whose two timestamps are both
empty: both substitute the wall clock and one record pair is produced. -/
theorem claim5_substitution_and_survival_witness :
    (fallsBack "" → HealthConnectHandler.parse_datetime_str 0 "" = ⟨0, false⟩) ∧
    (fallsBack "" → HealthConnectHandler.parse_datetime_str 0 "" = ⟨0, false⟩) ∧
    HealthConnectHandler.normalize 0 (mkTimesSession "" "") =
      .ok [({ category := "workout"
              type := .OTHER
              source_name := .str "Google Health Connect"
              device_id := none
              duration_seconds := ratTrunc (pySub
                (HealthConnectHandler.parse_datetime_str 0 "").epoch
                (HealthConnectHandler.parse_datetime_str 0 "").epoch)
              start_datetime := HealthConnectHandler.parse_datetime_str 0 ""
              end_datetime := HealthConnectHandler.parse_datetime_str 0 ""
              provider_id := none
              user_id := none },
            ⟨none, none, none, none, none, none⟩)] :=
  claim5_substitution_and_survival 0 "" "" (Or.inl (Or.inl rfl)) rfl
